import Mathlib

/-!
Formal model of `src/js/slider.js` from the repository `webinteraction/slider`.

The source is a browser slide carousel.  We give a shallow embedding of its
data model and operations:

* JavaScript numbers are modelled by `ℚ` (the arithmetic in the source is
  index arithmetic and percentage ratios; the `NaN` paths that arise from a
  zero or `undefined` width are kept out of scope by explicit `width ≠ 0`
  hypotheses where division occurs).
* The DOM is modelled by the single slide-list element the component acts on
  (`ListDom`): its `childElementCount`, its `style.left` percentage value and
  its `swiping` class.  The outcome of the DOM traversal performed by
  `loadState` (`el.closest(containerSelector)` followed by
  `container.querySelector(sliderSelector)`, lines 86-93) is modelled by the
  `Lookup` type: no matching container, a container without a matching list,
  or the container (with its measured width) holding the slide list.
* `getSlideIndex` (lines 109-116) reads `style.left` as a string, strips every
  `%` and `-` character, applies `parseInt` and rounds the result divided
  by 100.  We model this twice: a literal string-level model
  (`getSlideIndexStr`) used for the parsing claims, and a numeric model
  (`getSlideIndex`) used inside the state machine, where `ratTrunc` plays the
  role of "render the number to decimal, strip `%`/`-`, `parseInt`": for a
  number `q` rendered in plain decimal notation that pipeline yields the
  integer part of `|q|`, i.e. `ratTrunc q`.  The two models are proved to
  agree on the rendered integers the component writes.
* Exceptions (`throw new Error(...)` in `loadState`) are modelled with
  `Except`; the error carries the (already partially mutated) state object,
  since the JavaScript exception propagates while `this.state` keeps the
  assignments performed before the `throw`.
* The `onSlide` callback (line 78) is modelled by a log of the state
  snapshots passed to it, in call order.
-/

namespace Slider

/-- Result of `left.replace(/[%-]/g, '')` (line 112 of the source): every `%`
and `-` character anywhere in the string is removed. -/
def stripPM (s : String) : String :=
  String.mk (s.data.filter (fun c => !(c == '%' || c == '-')))

/-- Longest run of decimal digits at the head of a character list. -/
def leadingDigits : List Char → List Char
  | [] => []
  | c :: cs => if c.isDigit then c :: leadingDigits cs else []

/-- Decimal value of a list of digit characters (most significant first). -/
def digitsVal (l : List Char) : ℕ :=
  l.foldl (fun n c => 10 * n + (c.toNat - 48)) 0

/-- Model of JavaScript `parseInt(s)` (radix 10) for the strings this program
produces: skip leading spaces, read the longest digit run, `none` when there
is no digit (JavaScript `NaN`).  After `stripPM` no `-` sign remains, and the
component never produces strings with a leading `+`, so signs are out of
scope. -/
def parseIntNat (s : String) : Option ℕ :=
  let ds := leadingDigits (s.data.dropWhile (fun c => c == ' '))
  if ds = [] then none else some (digitsVal ds)

/-- String-level model of `getSlideIndex` (lines 109-116): take
`style.left || '0%'`, strip `%` and `-`, `parseInt`, and round the result
divided by 100.  For a natural number `n`, `Math.round(n / 100)` is
`(n + 50) / 100` in natural division.  `none` models a `NaN` index. -/
def getSlideIndexStr (left : Option String) : Option ℕ :=
  let l0 := left.getD ""
  let l1 := if l0 = "" then "0%" else l0
  (parseIntNat (stripPM l1)).map (fun n => (n + 50) / 100)

/-- Decimal digit characters of `n`, most significant first; this is the
JavaScript rendering of a nonnegative integer number. -/
def renderDigits (n : ℕ) : List Char :=
  if n < 10 then [Nat.digitChar n]
  else renderDigits (n / 10) ++ [Nat.digitChar (n % 10)]
termination_by n
decreasing_by exact Nat.div_lt_self (by omega) (by omega)

/-- The string the claims write into `style.left` for index `I`:
`"-" ++ digits of (I*100) ++ "%"`, e.g. `"-200%"` for `I = 2`. -/
def negLeftString (n : ℕ) : String :=
  String.mk ('-' :: renderDigits n ++ ['%'])

/-- Same string without the minus sign, e.g. `"200%"`. -/
def posLeftString (n : ℕ) : String :=
  String.mk (renderDigits n ++ ['%'])

/-- Integer part of `|q|`.  This is what the `getSlideIndex` string pipeline
(decimal rendering, `replace(/[%-]/g, '')`, `parseInt`) computes for a number
`q` rendered in plain decimal notation: the sign and the `%` suffix are
stripped and `parseInt` truncates at the decimal point. -/
def ratTrunc (q : ℚ) : ℕ := q.num.natAbs / q.den

/-- Slider component configuration (`this.config`).  Only the numeric
`threshold` option (default `20`) enters the control flow modelled here; the
selectors and the attribute name are abstracted into `Lookup`, and `onSlide`
into the snapshot log. -/
structure Config where
  threshold : ℚ
deriving DecidableEq

/-- The slide-list DOM element the loaded slider points at: its
`childElementCount`, its `style.left` percentage value (`none` = never set,
which the source reads as `'0%'` via `left || '0%'`), and whether it carries
the `swiping` class. -/
structure ListDom where
  childElementCount : ℕ
  left : Option ℚ
  swipingClass : Bool
deriving DecidableEq

/-- Component state (`this.state`, lines 35-44).  `slider` is `some ()` when
the state holds a reference to the slide list (the single `ListDom` of the
model); `sliderContainer` holds the id of the container element found by
`el.closest`.  `start` and `width` are `none` while `undefined`. -/
structure State where
  index : ℤ
  length : ℕ
  slider : Option Unit
  sliderContainer : Option ℕ
  start : Option ℚ
  swiping : Bool
  swipingDistance : ℚ
  width : Option ℚ
deriving DecidableEq

/-- Initial state set by `init` (lines 35-44). -/
def initState : State :=
  { index := 0, length := 0, slider := none, sliderContainer := none,
    start := none, swiping := false, swipingDistance := 0, width := none }

/-- The two `throw new Error(...)` failures of `loadState`. -/
inductive LoadErr
  | containerNotFound
  | sliderNotFound
deriving DecidableEq

/-- Outcome of the DOM traversal of `loadState` from a given element:
`el.closest(config.sliderContainer)` finds nothing; or it finds container
`c` whose `querySelector(config.slider)` finds no list; or it finds container
`c` (measured width `w`) containing the slide list. -/
inductive Lookup
  | noContainer
  | containerNoList (c : ℕ)
  | found (c : ℕ) (w : ℚ)
deriving DecidableEq

/-- Numeric model of `getSlideIndex` (lines 109-116) reading the loaded
slide list's `style.left`: value of `parseInt` on the stripped rendering is
`ratTrunc` of the stored number, and `Math.round(n / 100)` is
`(n + 50) / 100`.  Agreement with the string-level `getSlideIndexStr` on the
integer values the component writes is proved in `getSlideIndex_agrees_neg`
and `getSlideIndex_agrees_pos` below. -/
def getSlideIndex (d : ListDom) : ℕ :=
  (ratTrunc (d.left.getD 0) + 50) / 100

/-- `swipingDistancePercentage` (lines 148-150):
`state.swipingDistance / state.width * 100`.  An `undefined` width is read
as `0`; the JavaScript `NaN` that a zero (or `undefined`) width would
produce is not modelled, so theorems that exercise this division carry a
`width ≠ 0` hypothesis. -/
def swipingDistancePercentage (s : State) : ℚ :=
  s.swipingDistance / s.width.getD 0 * 100

/-- Index clamping of `setState` (lines 67-69): `if (index < 0) index = 0;
else if (index >= length) index = length - 1`. -/
def clampSt (s : State) : State :=
  if s.index < 0 then { s with index := 0 }
  else if (s.length : ℤ) ≤ s.index then { s with index := (s.length : ℤ) - 1 }
  else s

/-- `setState` (lines 63-79): no-op when no slider is loaded; otherwise clamp
the index, write `style.left` as `index * -100 + swipingDistancePercentage()`
percent, toggle the `swiping` class, and fire `onSlide` once with the current
state.  Returns the new component state, the new DOM, and the list of state
snapshots passed to `onSlide`. -/
def setState (s : State) (d : ListDom) : State × ListDom × List State :=
  match s.slider with
  | none => (s, d, [])
  | some _ =>
      let s1 := clampSt s
      (s1,
       { d with left := some ((s1.index : ℚ) * (-100) + swipingDistancePercentage s1),
                swipingClass := s1.swiping },
       [s1])

/-- `loadState` (lines 86-103).  Assignments happen in source order, so on
the `container not found` path `sliderContainer` has already been set to
`null`, and on the `slider not found` path `sliderContainer` has been set to
the found container and `slider` to `null`, before the throw; the error
therefore carries the mutated state. -/
def loadState (lk : Lookup) (s : State) (d : ListDom) : Except (LoadErr × State) State :=
  match lk with
  | .noContainer =>
      .error (.containerNotFound, { s with sliderContainer := none })
  | .containerNoList c =>
      .error (.sliderNotFound, { s with sliderContainer := some c, slider := none })
  | .found c w =>
      .ok { s with sliderContainer := some c, slider := some (),
                   length := d.childElementCount,
                   index := (getSlideIndex d : ℤ),
                   width := some w }

/-- `navigate` (lines 132-142): reload state from the element, step the index
by one in the given direction, and render via `setState`. -/
def navigate (lk : Lookup) (forward : Bool) (s : State) (d : ListDom) :
    Except (LoadErr × State) (State × ListDom × List State) :=
  match loadState lk s d with
  | .error e => .error e
  | .ok s1 =>
      let s2 := if forward then { s1 with index := s1.index + 1 }
                else { s1 with index := s1.index - 1 }
      .ok (setState s2 d)

/-- Result of one event handler: final component state, final DOM, `onSlide`
snapshots in call order, whether `preventDefault` was called, and the
uncaught `loadState` error if one escaped the handler. -/
structure HRes where
  state : State
  dom : ListDom
  emits : List State
  prevented : Bool
  err : Option LoadErr
deriving DecidableEq

/-- Click event as the handler observes it: whether the target matches the
`[attr-prev]` / `[attr-next]` selectors (element or descendant), and the
traversal outcome from the target. -/
structure ClickEv where
  prevMatch : Bool
  nextMatch : Bool
  lookup : Lookup
deriving DecidableEq

/-- `click` (lines 156-169): `prevClick` wins over `nextClick`; unrelated
clicks return without `preventDefault`; otherwise `preventDefault` then
`navigate(target, nextClick)`. -/
def click (e : ClickEv) (s : State) (d : ListDom) : HRes :=
  let prevClick := e.prevMatch
  let nextClick := !prevClick && e.nextMatch
  if !prevClick && !nextClick then ⟨s, d, [], false, none⟩
  else
    match navigate e.lookup nextClick s d with
    | .error (er, s') => ⟨s', d, [], true, some er⟩
    | .ok (s', d', log) => ⟨s', d', log, true, none⟩

/-- Touch event as the handlers observe it: number of touch points, whether
the target is the attributed slider or inside one, the touch's `screenX`,
and the traversal outcome from the target. -/
structure TouchEv where
  touchCount : ℕ
  inAttr : Bool
  screenX : ℚ
  lookup : Lookup
deriving DecidableEq

/-- `touchStart` (lines 175-193): ignore unless exactly one touch on an
attributed slider; load state, record the starting x, set `swiping`,
render. -/
def touchStart (e : TouchEv) (s : State) (d : ListDom) : HRes :=
  if e.touchCount ≠ 1 then ⟨s, d, [], false, none⟩
  else if !e.inAttr then ⟨s, d, [], false, none⟩
  else
    match loadState e.lookup s d with
    | .error (er, s') => ⟨s', d, [], false, some er⟩
    | .ok s1 =>
        let s2 := { s1 with start := some e.screenX, swiping := true }
        let r := setState s2 d
        ⟨r.1, r.2.1, r.2.2, false, none⟩

/-- `touchMove` (lines 199-211): ignore unless exactly one touch and a swipe
is in progress; update the swipe distance to `screenX - start` and render.
(`start` is always set while `swiping` holds; an `undefined` start is read
as `0`.) -/
def touchMove (e : TouchEv) (s : State) (d : ListDom) : HRes :=
  if e.touchCount ≠ 1 then ⟨s, d, [], false, none⟩
  else if !s.swiping then ⟨s, d, [], false, none⟩
  else
    let s1 := { s with swipingDistance := e.screenX - s.start.getD 0 }
    let r := setState s1 d
    ⟨r.1, r.2.1, r.2.2, false, none⟩

/-- `touchEnd` (lines 217-229): compare the swipe-distance percentage with
the threshold (`distance <= -threshold` navigates forward,
`distance >= threshold` navigates backward, both inclusive), then clear the
swipe state and render again.  The inner `navigate` starts its traversal at
`state.sliderContainer`; `lk` is that traversal's outcome.  If `navigate`
throws, the rest of the handler does not run. -/
def touchEnd (lk : Lookup) (cfg : Config) (s : State) (d : ListDom) : HRes :=
  let distance := swipingDistancePercentage s
  if distance ≤ cfg.threshold * (-1) then
    match navigate lk true s d with
    | .error (er, s') => ⟨s', d, [], false, some er⟩
    | .ok (s1, d1, log1) =>
        let s2 := { s1 with swiping := false, swipingDistance := 0 }
        let r := setState s2 d1
        ⟨r.1, r.2.1, log1 ++ r.2.2, false, none⟩
  else if cfg.threshold ≤ distance then
    match navigate lk false s d with
    | .error (er, s') => ⟨s', d, [], false, some er⟩
    | .ok (s1, d1, log1) =>
        let s2 := { s1 with swiping := false, swipingDistance := 0 }
        let r := setState s2 d1
        ⟨r.1, r.2.1, log1 ++ r.2.2, false, none⟩
  else
    let s2 := { s with swiping := false, swipingDistance := 0 }
    let r := setState s2 d
    ⟨r.1, r.2.1, r.2.2, false, none⟩

/-- Keydown event as the handler observes it: whether the focused target is a
strict descendant of an attributed slider (`matches('[attr] *')`), the key,
and the traversal outcome from the target. -/
structure KeyEv where
  inAttr : Bool
  key : String
  lookup : Lookup
deriving DecidableEq

/-- `keydown` (lines 235-244): ignored unless focused inside an attributed
slider; on ArrowLeft/ArrowRight, `preventDefault` then navigate backward
resp. forward; other keys are ignored. -/
def keydown (e : KeyEv) (s : State) (d : ListDom) : HRes :=
  if !e.inAttr then ⟨s, d, [], false, none⟩
  else if e.key = "ArrowLeft" ∨ e.key = "ArrowRight" then
    match navigate e.lookup (e.key == "ArrowRight") s d with
    | .error (er, s') => ⟨s', d, [], true, some er⟩
    | .ok (s', d', log) => ⟨s', d', log, true, none⟩
  else ⟨s, d, [], false, none⟩

/-- Saturating single navigation step as the specification describes it:
forward moves to `min (i+1) (length-1)`, backward to `i-1` saturating
at `0` (natural subtraction). -/
def specNavStep (len : ℕ) (i : ℕ) (fwd : Bool) : ℕ :=
  if fwd then min (i + 1) (len - 1) else i - 1

/-- Iterated `navigate` against one loaded slider (container id `c`, width
`w`); the error branch is unreachable for a `found` lookup. -/
def navSeq (c : ℕ) (w : ℚ) (dirs : List Bool) (s : State) (d : ListDom) : State × ListDom :=
  match dirs with
  | [] => (s, d)
  | fwd :: rest =>
      match navigate (Lookup.found c w) fwd s d with
      | .ok (s', d', _) => navSeq c w rest s' d'
      | .error _ => (s, d)

/-- State left behind by `loadState`, whether it returned or threw. -/
def loadStateOk (lk : Lookup) (s : State) (d : ListDom) : State :=
  match loadState lk s d with
  | .ok s' => s'
  | .error (_, s') => s'

/-- The state `loadState` produces on a successful lookup (lines 86-103):
container and slider references set, length from `childElementCount`, index
from `getSlideIndex`, width from the container measurement. -/
def loadedState (c : ℕ) (w : ℚ) (s : State) (d : ListDom) : State :=
  { s with sliderContainer := some c, slider := some (),
           length := d.childElementCount,
           index := (getSlideIndex d : ℤ),
           width := some w }

/-- Pure form of the index clamping (lines 67-69) as a function of the
length and the incoming index. -/
def clampIdx (len : ℕ) (i : ℤ) : ℤ :=
  if i < 0 then 0 else if (len : ℤ) ≤ i then (len : ℤ) - 1 else i

/-- The default configuration's threshold (`threshold: 20`). -/
def cfg20 : Config := { threshold := 20 }

/-- A loaded four-slide slider mid-swipe: the finger has moved 60px left on a
100px container, so the last render wrote `left = 0 * -100 + (-60) = -60%`. -/
def exState : State :=
  { index := 0, length := 4, slider := some (), sliderContainer := some 0,
    start := some 100, swiping := true, swipingDistance := -60, width := some 100 }

/-- DOM of `exState`. -/
def exDom : ListDom :=
  { childElementCount := 4, left := some (-60), swipingClass := true }

/-- A loaded three-slide slider at index 1 mid-swipe, 20px right on a 100px
container: the last render wrote `left = 1 * -100 + 20 = -80%`. -/
def c3State : State :=
  { index := 1, length := 3, slider := some (), sliderContainer := some 0,
    start := some 0, swiping := true, swipingDistance := 20, width := some 100 }

/-- DOM of `c3State`. -/
def c3Dom : ListDom :=
  { childElementCount := 3, left := some (-80), swipingClass := true }

/-- A loaded three-slide slider at rest at index 0. -/
def restState : State :=
  { index := 0, length := 3, slider := some (), sliderContainer := some 0,
    start := none, swiping := false, swipingDistance := 0, width := some 100 }

/-- DOM of `restState`. -/
def restDom : ListDom :=
  { childElementCount := 3, left := some 0, swipingClass := false }

/-- A loaded slider whose slide list is empty (`childElementCount = 0`). -/
def zeroLenState : State :=
  { index := 0, length := 0, slider := some (), sliderContainer := some 0,
    start := none, swiping := false, swipingDistance := 0, width := some 100 }

/-- DOM of `zeroLenState`. -/
def zeroLenDom : ListDom :=
  { childElementCount := 0, left := none, swipingClass := false }

/-- A three-slide list whose `style.left` is `-500%` (e.g. slides were
removed after a render at index 5). -/
def staleDom : ListDom :=
  { childElementCount := 3, left := some (-500), swipingClass := false }

example : negLeftString 200 = "-200%" := by
  simp [negLeftString, renderDigits]
  rfl
example : posLeftString 200 = "200%" := by
  simp [posLeftString, renderDigits]
  rfl
example : renderDigits 0 = ['0'] := by
  simp [renderDigits]
  rfl
example : getSlideIndexStr (some "-200%") = some 2 := rfl
example : getSlideIndexStr (some "") = some 0 := rfl
example : getSlideIndexStr none = some 0 := rfl

theorem digitChar_isDigit {r : ℕ} (h : r < 10) : (Nat.digitChar r).isDigit = true := by
  interval_cases r <;> decide

theorem digitChar_val {r : ℕ} (h : r < 10) : (Nat.digitChar r).toNat - 48 = r := by
  interval_cases r <;> decide

theorem digit_not_pct {c : Char} (h : c.isDigit = true) : (c == '%') = false := by
  by_contra hne
  have hb : (c == '%') = true := by
    cases hc : (c == '%') with
    | false => exact absurd hc hne
    | true => rfl
  have : c = '%' := beq_iff_eq.mp hb
  subst this
  exact absurd h (by decide)

theorem digit_not_minus {c : Char} (h : c.isDigit = true) : (c == '-') = false := by
  by_contra hne
  have hb : (c == '-') = true := by
    cases hc : (c == '-') with
    | false => exact absurd hc hne
    | true => rfl
  have : c = '-' := beq_iff_eq.mp hb
  subst this
  exact absurd h (by decide)

theorem digit_not_space {c : Char} (h : c.isDigit = true) : (c == ' ') = false := by
  by_contra hne
  have hb : (c == ' ') = true := by
    cases hc : (c == ' ') with
    | false => exact absurd hc hne
    | true => rfl
  have : c = ' ' := beq_iff_eq.mp hb
  subst this
  exact absurd h (by decide)

theorem renderDigits_ne_nil (n : ℕ) : renderDigits n ≠ [] := by
  unfold renderDigits
  split <;> simp

theorem renderDigits_all_digits (n : ℕ) : ∀ c ∈ renderDigits n, c.isDigit = true := by
  induction n using renderDigits.induct with
  | case1 n h =>
    unfold renderDigits
    simp only [if_pos h, List.mem_singleton]
    rintro c rfl
    exact digitChar_isDigit h
  | case2 n h ih =>
    unfold renderDigits
    simp only [if_neg h, List.mem_append, List.mem_singleton]
    rintro c (hc | rfl)
    · exact ih c hc
    · exact digitChar_isDigit (Nat.mod_lt _ (by omega))

theorem digitsVal_append_singleton (l : List Char) (c : Char) :
    digitsVal (l ++ [c]) = 10 * digitsVal l + (c.toNat - 48) := by
  simp [digitsVal, List.foldl_append]

theorem digitsVal_renderDigits (n : ℕ) : digitsVal (renderDigits n) = n := by
  induction n using renderDigits.induct with
  | case1 n h =>
    unfold renderDigits
    simp only [if_pos h]
    simp [digitsVal, digitChar_val h]
  | case2 n h ih =>
    unfold renderDigits
    simp only [if_neg h]
    rw [digitsVal_append_singleton, ih, digitChar_val (Nat.mod_lt _ (by omega))]
    omega

theorem leadingDigits_of_all_digits {l : List Char} (h : ∀ c ∈ l, c.isDigit = true) :
    leadingDigits l = l := by
  induction l with
  | nil => rfl
  | cons c cs ih =>
    simp only [leadingDigits, if_pos (h c (by simp))]
    rw [ih (fun c hc => h c (by simp [hc]))]

theorem dropWhile_space_of_all_digits {l : List Char} (h : ∀ c ∈ l, c.isDigit = true) :
    l.dropWhile (fun c => c == ' ') = l := by
  cases l with
  | nil => rfl
  | cons c cs =>
    rw [List.dropWhile_cons_of_neg]
    simp [digit_not_space (h c (by simp))]

theorem filter_pm_of_all_digits {l : List Char} (h : ∀ c ∈ l, c.isDigit = true) :
    l.filter (fun c => !(c == '%' || c == '-')) = l := by
  induction l with
  | nil => rfl
  | cons c cs ih =>
    rw [List.filter_cons_of_pos]
    · rw [ih (fun c hc => h c (by simp [hc]))]
    · simp [digit_not_pct (h c (by simp)), digit_not_minus (h c (by simp))]

theorem parseIntNat_renderDigits (n : ℕ) :
    parseIntNat (String.mk (renderDigits n)) = some n := by
  unfold parseIntNat
  simp only [String.mk]
  rw [dropWhile_space_of_all_digits (renderDigits_all_digits n),
    leadingDigits_of_all_digits (renderDigits_all_digits n)]
  rw [if_neg (renderDigits_ne_nil n), digitsVal_renderDigits]

theorem stripPM_negLeftString (n : ℕ) :
    stripPM (negLeftString n) = String.mk (renderDigits n) := by
  unfold stripPM negLeftString
  change String.mk (List.filter (fun c => !(c == '%' || c == '-'))
    (('-' :: renderDigits n) ++ ['%'])) = _
  rw [List.filter_append, List.filter_cons_of_neg (by decide)]
  rw [filter_pm_of_all_digits (renderDigits_all_digits n)]
  simp

theorem stripPM_posLeftString (n : ℕ) :
    stripPM (posLeftString n) = String.mk (renderDigits n) := by
  unfold stripPM posLeftString
  change String.mk (List.filter (fun c => !(c == '%' || c == '-'))
    (renderDigits n ++ ['%'])) = _
  rw [List.filter_append]
  rw [filter_pm_of_all_digits (renderDigits_all_digits n)]
  simp

theorem negLeftString_ne_empty (n : ℕ) : negLeftString n ≠ "" := by
  unfold negLeftString
  intro h
  have h2 : ('-' :: renderDigits n ++ ['%']) = ([] : List Char) := by
    have h3 := congrArg String.data h
    simp at h3
  simp at h2

theorem posLeftString_ne_empty (n : ℕ) : posLeftString n ≠ "" := by
  unfold posLeftString
  intro h
  have h2 : (renderDigits n ++ ['%']) = ([] : List Char) := by
    have h3 := congrArg String.data h
    simp at h3
  simp at h2

/-- Parsing the rendered string `"-n%"` yields `Math.round(n / 100)`. -/
theorem getSlideIndexStr_neg (n : ℕ) :
    getSlideIndexStr (some (negLeftString n)) = some ((n + 50) / 100) := by
  unfold getSlideIndexStr
  simp only [Option.getD_some]
  rw [if_neg (negLeftString_ne_empty n), stripPM_negLeftString, parseIntNat_renderDigits]
  rfl

/-- Parsing the rendered string `"n%"` yields `Math.round(n / 100)`. -/
theorem getSlideIndexStr_pos (n : ℕ) :
    getSlideIndexStr (some (posLeftString n)) = some ((n + 50) / 100) := by
  unfold getSlideIndexStr
  simp only [Option.getD_some]
  rw [if_neg (posLeftString_ne_empty n), stripPM_posLeftString, parseIntNat_renderDigits]
  rfl



theorem clampSt_eq (s : State) :
    clampSt s = { s with index := clampIdx s.length s.index } := by
  unfold clampSt clampIdx
  split_ifs <;> rfl

theorem clampIdx_nonneg_lt (len : ℕ) (i : ℤ) (h : 1 ≤ len) :
    0 ≤ clampIdx len i ∧ clampIdx len i < (len : ℤ) := by
  unfold clampIdx
  split_ifs <;> omega

theorem clampIdx_fwd (len r : ℕ) (h1 : 1 ≤ len) (h2 : r < len) :
    clampIdx len ((r : ℤ) + 1) = (specNavStep len r true : ℤ) := by
  have h3 : specNavStep len r true = min (r + 1) (len - 1) := by simp [specNavStep]
  rw [h3]
  unfold clampIdx
  rcases Nat.le_total (r + 1) (len - 1) with hc | hc
  · rw [min_eq_left hc]
    split_ifs <;> omega
  · rw [min_eq_right hc]
    split_ifs <;> omega

theorem clampIdx_bwd (len r : ℕ) (h1 : 1 ≤ len) (h2 : r < len) :
    clampIdx len ((r : ℤ) - 1) = (specNavStep len r false : ℤ) := by
  have h3 : specNavStep len r false = r - 1 := by simp [specNavStep]
  rw [h3]
  unfold clampIdx
  split_ifs <;> omega

theorem specNavStep_lt (len r : ℕ) (fwd : Bool) (h1 : 1 ≤ len) (h2 : r < len) :
    specNavStep len r fwd < len := by
  unfold specNavStep
  split
  · rcases Nat.le_total (r + 1) (len - 1) with hc | hc
    · rw [min_eq_left hc]
      omega
    · rw [min_eq_right hc]
      omega
  · omega

theorem setState_none (s : State) (d : ListDom) (h : s.slider = none) :
    setState s d = (s, d, []) := by
  unfold setState
  rw [h]

theorem setState_some (s : State) (d : ListDom) (h : s.slider = some ()) :
    setState s d =
      (clampSt s,
       { d with left := some (((clampSt s).index : ℚ) * (-100)
                  + swipingDistancePercentage (clampSt s)),
                swipingClass := (clampSt s).swiping },
       [clampSt s]) := by
  unfold setState
  rw [h]

theorem ratTrunc_intCast (n : ℤ) : ratTrunc ((n : ℤ) : ℚ) = n.natAbs := by
  simp [ratTrunc, Rat.num_intCast, Rat.den_intCast]

theorem getSlideIndex_of_resting (L : ℕ) (k : ℕ) (sc : Bool) :
    getSlideIndex { childElementCount := L, left := some ((k : ℚ) * (-100)), swipingClass := sc } = k := by
  show (ratTrunc (Option.getD (some ((k : ℚ) * (-100))) 0) + 50) / 100 = k
  rw [Option.getD_some]
  have h1 : ((k : ℚ) * (-100)) = ((-(100 * (k : ℤ)) : ℤ) : ℚ) := by push_cast; ring
  rw [h1, ratTrunc_intCast]
  have h2 : (-(100 * (k : ℤ))).natAbs = 100 * k := by
    rw [Int.natAbs_neg]
    simp [Int.natAbs_mul]
  rw [h2]
  omega


theorem clampSt_length (s : State) : (clampSt s).length = s.length := by
  unfold clampSt
  split_ifs <;> rfl

theorem clampSt_slider (s : State) : (clampSt s).slider = s.slider := by
  unfold clampSt
  split_ifs <;> rfl

theorem clampSt_swiping (s : State) : (clampSt s).swiping = s.swiping := by
  unfold clampSt
  split_ifs <;> rfl

theorem clampSt_swipingDistance (s : State) : (clampSt s).swipingDistance = s.swipingDistance := by
  unfold clampSt
  split_ifs <;> rfl

theorem clampSt_width (s : State) : (clampSt s).width = s.width := by
  unfold clampSt
  split_ifs <;> rfl

theorem clampSt_of_inRange (s : State) (h0 : 0 ≤ s.index) (h1 : s.index < (s.length : ℤ)) :
    clampSt s = s := by
  unfold clampSt
  rw [if_neg (by omega), if_neg (by omega)]


theorem loadState_found (c : ℕ) (w : ℚ) (s : State) (d : ListDom) :
    loadState (Lookup.found c w) s d = Except.ok (loadedState c w s d) := rfl

/-- Full characterization of `navigate` on a successful lookup against a
list whose rendered index is below the child count: state reloaded, index
stepped and clamped to `specNavStep`, one render, one `onSlide` snapshot. -/
theorem navigate_found_eq (c : ℕ) (w : ℚ) (fwd : Bool) (s : State) (d : ListDom)
    (hL : 1 ≤ d.childElementCount) (hread : getSlideIndex d < d.childElementCount) :
    navigate (Lookup.found c w) fwd s d =
      Except.ok
        ({ loadedState c w s d with
             index := (specNavStep d.childElementCount (getSlideIndex d) fwd : ℤ) },
         { d with
             left := some ((specNavStep d.childElementCount (getSlideIndex d) fwd : ℚ) * (-100)
                    + s.swipingDistance / w * 100),
             swipingClass := s.swiping },
         [{ loadedState c w s d with
              index := (specNavStep d.childElementCount (getSlideIndex d) fwd : ℤ) }]) := by
  cases fwd with
  | true =>
    have h1 : navigate (Lookup.found c w) true s d
        = Except.ok (setState
            { loadedState c w s d with index := (getSlideIndex d : ℤ) + 1 } d) := rfl
    have hidx : clampIdx d.childElementCount ((getSlideIndex d : ℤ) + 1)
        = (specNavStep d.childElementCount (getSlideIndex d) true : ℤ) :=
      clampIdx_fwd _ _ hL hread
    rw [h1, setState_some _ _ rfl, clampSt_eq]
    simp only [loadedState, swipingDistancePercentage]
    simp only [Except.ok.injEq, Prod.mk.injEq, List.cons.injEq, and_true]
    rw [hidx]
    refine ⟨rfl, ?_, rfl⟩
    simp
  | false =>
    have h1 : navigate (Lookup.found c w) false s d
        = Except.ok (setState
            { loadedState c w s d with index := (getSlideIndex d : ℤ) - 1 } d) := rfl
    have hidx : clampIdx d.childElementCount ((getSlideIndex d : ℤ) - 1)
        = (specNavStep d.childElementCount (getSlideIndex d) false : ℤ) :=
      clampIdx_bwd _ _ hL hread
    rw [h1, setState_some _ _ rfl, clampSt_eq]
    simp only [loadedState, swipingDistancePercentage]
    simp only [Except.ok.injEq, Prod.mk.injEq, List.cons.injEq, and_true]
    rw [hidx]
    refine ⟨rfl, ?_, rfl⟩
    simp


theorem navigate_noContainer (fwd : Bool) (s : State) (d : ListDom) :
    navigate Lookup.noContainer fwd s d
      = Except.error (LoadErr.containerNotFound, { s with sliderContainer := none }) := rfl

theorem navigate_containerNoList (cc : ℕ) (fwd : Bool) (s : State) (d : ListDom) :
    navigate (Lookup.containerNoList cc) fwd s d
      = Except.error (LoadErr.sliderNotFound,
          { s with sliderContainer := some cc, slider := none }) := rfl

theorem setState_loaded_range (s : State) (d : ListDom) (hs : s.slider = some ())
    (hL : 1 ≤ s.length) :
    0 ≤ (setState s d).1.index ∧ (setState s d).1.index < ((setState s d).1.length : ℤ) := by
  rw [setState_some s d hs, clampSt_eq]
  exact clampIdx_nonneg_lt s.length s.index hL

theorem ratTrunc_natMul_negHundred (k : ℕ) : ratTrunc ((k : ℚ) * (-100)) = 100 * k := by
  have h1 : ((k : ℚ) * (-100)) = ((-(100 * (k : ℤ)) : ℤ) : ℚ) := by push_cast; ring
  rw [h1, ratTrunc_intCast, Int.natAbs_neg]
  simp [Int.natAbs_mul]

theorem getSlideIndex_eq_of_left (d : ListDom) (k : ℕ)
    (h : d.left = some ((k : ℚ) * (-100))) : getSlideIndex d = k := by
  unfold getSlideIndex
  rw [h, Option.getD_some, ratTrunc_natMul_negHundred]
  omega

/-- One step of `navSeq`, rewritten through `navigate_found_eq`. -/
theorem navSeq_cons_found (c : ℕ) (w : ℚ) (fwd : Bool) (rest : List Bool)
    (s : State) (d : ListDom)
    (hL : 1 ≤ d.childElementCount) (hread : getSlideIndex d < d.childElementCount) :
    navSeq c w (fwd :: rest) s d =
      navSeq c w rest
        { loadedState c w s d with
            index := (specNavStep d.childElementCount (getSlideIndex d) fwd : ℤ) }
        { d with
            left := some ((specNavStep d.childElementCount (getSlideIndex d) fwd : ℚ) * (-100)
                   + s.swipingDistance / w * 100),
            swipingClass := s.swiping } := by
  show (match navigate (Lookup.found c w) fwd s d with
        | Except.ok (s', d', _) => navSeq c w rest s' d'
        | Except.error _ => (s, d)) = _
  rw [navigate_found_eq c w fwd s d hL hread]

/-- Iterated navigation from a resting loaded state follows the saturating
specification fold. -/
theorem navSeq_spec (c : ℕ) (w : ℚ) (dirs : List Bool) :
    ∀ (s : State) (d : ListDom), w ≠ 0 → s.swipingDistance = 0 →
      1 ≤ d.childElementCount → getSlideIndex d < d.childElementCount →
      s.index = (getSlideIndex d : ℤ) →
      (navSeq c w dirs s d).1.index
          = ((dirs.foldl (fun i fwd => specNavStep d.childElementCount i fwd)
              (getSlideIndex d) : ℕ) : ℤ) ∧
      (navSeq c w dirs s d).2.childElementCount = d.childElementCount ∧
      dirs.foldl (fun i fwd => specNavStep d.childElementCount i fwd) (getSlideIndex d)
          < d.childElementCount := by
  induction dirs with
  | nil =>
    intro s d hw hdist hL hread hidx
    refine ⟨?_, rfl, hread⟩
    simpa [navSeq] using hidx
  | cons fwd rest ih =>
    intro s d hw hdist hL hread hidx
    rw [navSeq_cons_found c w fwd rest s d hL hread]
    have hdist0 : s.swipingDistance / w * 100 = 0 := by
      rw [hdist, zero_div, zero_mul]
    rw [hdist0]
    have hleft : ({ d with
        left := some ((specNavStep d.childElementCount (getSlideIndex d) fwd : ℚ) * (-100) + 0),
        swipingClass := s.swiping } : ListDom).left
        = some ((specNavStep d.childElementCount (getSlideIndex d) fwd : ℚ) * (-100)) := by
      rw [add_zero]
    have hlt := specNavStep_lt d.childElementCount (getSlideIndex d) fwd hL hread
    have hread2 := getSlideIndex_eq_of_left _ _ hleft
    have hrec := ih ({ loadedState c w s d with
        index := (specNavStep d.childElementCount (getSlideIndex d) fwd : ℤ) })
      ({ d with
          left := some ((specNavStep d.childElementCount (getSlideIndex d) fwd : ℚ) * (-100) + 0),
          swipingClass := s.swiping })
      hw hdist hL (by rw [hread2]; exact hlt) (by rw [hread2])
    rw [List.foldl_cons]
    rw [hread2] at hrec
    exact hrec


/-- Any successful `navigate` against a found lookup: the result state has
the list's child count as length, holds the slider, fired `onSlide` exactly
once with the final state, and its index is in range when the list is
nonempty. -/
theorem navigate_found_ok_props (cc : ℕ) (w : ℚ) (fwd : Bool) (s : State) (d : ListDom)
    (s' : State) (d' : ListDom) (log : List State)
    (h : navigate (Lookup.found cc w) fwd s d = Except.ok (s', d', log)) :
    s'.length = d.childElementCount ∧ s'.slider = some () ∧ log = [s'] ∧
    (1 ≤ d.childElementCount → 0 ≤ s'.index ∧ s'.index < (s'.length : ℤ)) := by
  cases fwd with
  | true =>
    have h1 : navigate (Lookup.found cc w) true s d
        = Except.ok (setState { loadedState cc w s d with
            index := (getSlideIndex d : ℤ) + 1 } d) := rfl
    rw [h1, setState_some _ _ rfl] at h
    have h3 := Except.ok.inj h
    have hfst : clampSt { loadedState cc w s d with
        index := (getSlideIndex d : ℤ) + 1 } = s' := congrArg Prod.fst h3
    have hlog : [clampSt { loadedState cc w s d with
        index := (getSlideIndex d : ℤ) + 1 }] = log := congrArg (fun p => p.2.2) h3
    refine ⟨?_, ?_, ?_, ?_⟩
    · rw [← hfst, clampSt_length]
      rfl
    · rw [← hfst, clampSt_slider]
      rfl
    · rw [← hfst]
      exact hlog.symm
    · intro hL
      rw [← hfst, clampSt_eq]
      show 0 ≤ clampIdx d.childElementCount ((getSlideIndex d : ℤ) + 1) ∧
        clampIdx d.childElementCount ((getSlideIndex d : ℤ) + 1) < ((d.childElementCount : ℕ) : ℤ)
      exact clampIdx_nonneg_lt _ _ hL
  | false =>
    have h1 : navigate (Lookup.found cc w) false s d
        = Except.ok (setState { loadedState cc w s d with
            index := (getSlideIndex d : ℤ) - 1 } d) := rfl
    rw [h1, setState_some _ _ rfl] at h
    have h3 := Except.ok.inj h
    have hfst : clampSt { loadedState cc w s d with
        index := (getSlideIndex d : ℤ) - 1 } = s' := congrArg Prod.fst h3
    have hlog : [clampSt { loadedState cc w s d with
        index := (getSlideIndex d : ℤ) - 1 }] = log := congrArg (fun p => p.2.2) h3
    refine ⟨?_, ?_, ?_, ?_⟩
    · rw [← hfst, clampSt_length]
      rfl
    · rw [← hfst, clampSt_slider]
      rfl
    · rw [← hfst]
      exact hlog.symm
    · intro hL
      rw [← hfst, clampSt_eq]
      show 0 ≤ clampIdx d.childElementCount ((getSlideIndex d : ℤ) - 1) ∧
        clampIdx d.childElementCount ((getSlideIndex d : ℤ) - 1) < ((d.childElementCount : ℕ) : ℤ)
      exact clampIdx_nonneg_lt _ _ hL


theorem clampIdx_of_inRange (len : ℕ) (i : ℤ) (h0 : 0 ≤ i) (h1 : i < (len : ℤ)) :
    clampIdx len i = i := by
  unfold clampIdx
  rw [if_neg (by omega), if_neg (by omega)]

/-- `touchEnd` when the swipe percentage reaches the forward threshold
(`distance <= threshold * -1`, line 220): navigate forward, then reset the
swipe state and render again; two `onSlide` snapshots total. -/
theorem touchEnd_found_forward (c : ℕ) (w : ℚ) (cfg : Config) (s : State) (d : ListDom)
    (hL : 1 ≤ d.childElementCount) (hread : getSlideIndex d < d.childElementCount)
    (hp : swipingDistancePercentage s ≤ cfg.threshold * (-1)) :
    (touchEnd (Lookup.found c w) cfg s d).err = none ∧
    (touchEnd (Lookup.found c w) cfg s d).state.index
      = (specNavStep d.childElementCount (getSlideIndex d) true : ℤ) ∧
    (touchEnd (Lookup.found c w) cfg s d).state.swiping = false ∧
    (touchEnd (Lookup.found c w) cfg s d).state.swipingDistance = 0 ∧
    (touchEnd (Lookup.found c w) cfg s d).emits.length = 2 := by
  unfold touchEnd
  rw [if_pos hp, navigate_found_eq c w true s d hL hread]
  simp only []
  rw [setState_some _ _ rfl, clampSt_eq]
  have hk : clampIdx d.childElementCount
      ((specNavStep d.childElementCount (getSlideIndex d) true : ℕ) : ℤ)
      = ((specNavStep d.childElementCount (getSlideIndex d) true : ℕ) : ℤ) := by
    refine clampIdx_of_inRange _ _ (by positivity) ?_
    exact_mod_cast specNavStep_lt _ _ _ hL hread
  refine ⟨by trivial, ?_, by trivial, by trivial, by trivial⟩
  show clampIdx d.childElementCount
      ((specNavStep d.childElementCount (getSlideIndex d) true : ℕ) : ℤ)
      = ((specNavStep d.childElementCount (getSlideIndex d) true : ℕ) : ℤ)
  exact hk

/-- `touchEnd` when the swipe percentage reaches the backward threshold
(`distance >= threshold`, line 221). -/
theorem touchEnd_found_backward (c : ℕ) (w : ℚ) (cfg : Config) (s : State) (d : ListDom)
    (hL : 1 ≤ d.childElementCount) (hread : getSlideIndex d < d.childElementCount)
    (hp1 : ¬ swipingDistancePercentage s ≤ cfg.threshold * (-1))
    (hp2 : cfg.threshold ≤ swipingDistancePercentage s) :
    (touchEnd (Lookup.found c w) cfg s d).err = none ∧
    (touchEnd (Lookup.found c w) cfg s d).state.index
      = (specNavStep d.childElementCount (getSlideIndex d) false : ℤ) ∧
    (touchEnd (Lookup.found c w) cfg s d).state.swiping = false ∧
    (touchEnd (Lookup.found c w) cfg s d).state.swipingDistance = 0 ∧
    (touchEnd (Lookup.found c w) cfg s d).emits.length = 2 := by
  unfold touchEnd
  rw [if_neg hp1, if_pos hp2, navigate_found_eq c w false s d hL hread]
  simp only []
  rw [setState_some _ _ rfl, clampSt_eq]
  have hk : clampIdx d.childElementCount
      ((specNavStep d.childElementCount (getSlideIndex d) false : ℕ) : ℤ)
      = ((specNavStep d.childElementCount (getSlideIndex d) false : ℕ) : ℤ) := by
    refine clampIdx_of_inRange _ _ (by positivity) ?_
    exact_mod_cast specNavStep_lt _ _ _ hL hread
  refine ⟨by trivial, ?_, by trivial, by trivial, by trivial⟩
  show clampIdx d.childElementCount
      ((specNavStep d.childElementCount (getSlideIndex d) false : ℕ) : ℤ)
      = ((specNavStep d.childElementCount (getSlideIndex d) false : ℕ) : ℤ)
  exact hk

/-- `touchEnd` strictly inside the thresholds: no navigation, swipe state
cleared, one render, index unchanged when it was in range. -/
theorem touchEnd_within (lk : Lookup) (cfg : Config) (s : State) (d : ListDom)
    (hp1 : ¬ swipingDistancePercentage s ≤ cfg.threshold * (-1))
    (hp2 : ¬ cfg.threshold ≤ swipingDistancePercentage s)
    (h0 : 0 ≤ s.index) (h1 : s.index < (s.length : ℤ)) :
    (touchEnd lk cfg s d).state.index = s.index ∧
    (touchEnd lk cfg s d).state.swiping = false ∧
    (touchEnd lk cfg s d).state.swipingDistance = 0 ∧
    (touchEnd lk cfg s d).err = none := by
  unfold touchEnd
  rw [if_neg hp1, if_neg hp2]
  simp only []
  by_cases hs : s.slider = none
  · rw [setState_none { s with swiping := false, swipingDistance := 0 } d hs]
    exact ⟨by trivial, by trivial, by trivial, by trivial⟩
  · have hsome : s.slider = some () := by
      cases h2 : s.slider with
      | none => exact absurd h2 hs
      | some u => cases u; rfl
    rw [setState_some { s with swiping := false, swipingDistance := 0 } d hsome,
      clampSt_of_inRange { s with swiping := false, swipingDistance := 0 } h0 h1]
    exact ⟨by trivial, by trivial, by trivial, by trivial⟩


/-- C1 (corrected).  The specification claims `0 ≤ index < length` holds
whenever a slider is loaded after every operation — including `loadState` —
for every length including 0.  The code violates this (see
`C1_counterexample`): `loadState` stores the parsed index without clamping,
and with `length = 0` the clamp of `setState` sets `index` to
`length - 1 = -1`.  Amended claim: whenever a slider is loaded with
`length ≥ 1`, the invariant `0 ≤ index < length` holds after `setState`
completes, and hence after every successful `navigate`, whose final action
is `setState`. -/
theorem C1_invariant_amended (s : State) (d : ListDom) :
    (s.slider = some () → 1 ≤ s.length →
      0 ≤ (setState s d).1.index ∧
      (setState s d).1.index < ((setState s d).1.length : ℤ)) ∧
    (∀ lk fwd s' d' log, navigate lk fwd s d = Except.ok (s', d', log) →
      1 ≤ d.childElementCount →
      0 ≤ s'.index ∧ s'.index < (s'.length : ℤ)) := by
  constructor
  · intro hs hL
    exact setState_loaded_range s d hs hL
  · intro lk fwd s' d' log h hL
    cases lk with
    | noContainer =>
      rw [navigate_noContainer] at h
      exact absurd h (by simp)
    | containerNoList cc =>
      rw [navigate_containerNoList] at h
      exact absurd h (by simp)
    | found cc w =>
      exact (navigate_found_ok_props cc w fwd s d s' d' log h).2.2.2 hL

/-- Witness for the amended C1 at a concrete loaded three-slide slider. -/
theorem C1_witness :
    0 ≤ (setState restState restDom).1.index ∧
    (setState restState restDom).1.index < ((setState restState restDom).1.length : ℤ) :=
  (C1_invariant_amended restState restDom).1 rfl (by decide)

/-- Counterexample to C1 as stated: loading a three-slide slider whose
`style.left` is `-500%` succeeds and leaves the loaded state with
`index = 5 ≥ length = 3` (no clamping in `loadState`), and rendering a
loaded zero-length slider sets `index = -1`. -/
theorem C1_counterexample :
    (loadState (Lookup.found 0 100) initState staleDom).isOk = true ∧
    (loadStateOk (Lookup.found 0 100) initState staleDom).slider = some () ∧
    (loadStateOk (Lookup.found 0 100) initState staleDom).index = 5 ∧
    (loadStateOk (Lookup.found 0 100) initState staleDom).length = 3 ∧
    ¬ ((loadStateOk (Lookup.found 0 100) initState staleDom).index
        < ((loadStateOk (Lookup.found 0 100) initState staleDom).length : ℤ)) ∧
    (setState zeroLenState zeroLenDom).1.index = -1 := by decide

/-- C2 (corrected).  As stated the claim fails: `navigate` re-derives the
index from the DOM `left` value, which during a live swipe is offset by the
swipe percentage, so a single forward navigate can change the index by 2
(see `C2_counterexample`).  Amended claim: from a loaded resting state (no
pending swipe distance, rendered `left` parsing back to an index below the
length, state index matching, `length ≥ 1`, nonzero width), every sequence
of navigate calls follows the saturating unit steps: each forward navigate
moves to `min (i+1) (length-1)`, each backward navigate to `i-1` stopping
at `0`; the index stays in `[0, length-1]` and never wraps. -/
theorem C2_navigate_amended (c : ℕ) (w : ℚ) (dirs : List Bool) (s : State) (d : ListDom)
    (hw : w ≠ 0) (hdist : s.swipingDistance = 0)
    (hL : 1 ≤ d.childElementCount) (hread : getSlideIndex d < d.childElementCount)
    (hidx : s.index = (getSlideIndex d : ℤ)) :
    (navSeq c w dirs s d).1.index
        = ((dirs.foldl (fun i fwd => specNavStep d.childElementCount i fwd)
            (getSlideIndex d) : ℕ) : ℤ) ∧
    0 ≤ (navSeq c w dirs s d).1.index ∧
    (navSeq c w dirs s d).1.index < (d.childElementCount : ℤ) := by
  obtain ⟨h1, _h2, h3⟩ := navSeq_spec c w dirs s d hw hdist hL hread hidx
  refine ⟨h1, ?_, ?_⟩
  · rw [h1]
    exact_mod_cast Nat.zero_le _
  · rw [h1]
    exact_mod_cast h3

/-- Witness for the amended C2: three forward navigations on a three-slide
slider starting at rest at index 0. -/
theorem C2_witness :
    (navSeq 0 100 [true, true, true] restState restDom).1.index
        = (([true, true, true].foldl (fun i fwd => specNavStep restDom.childElementCount i fwd)
            (getSlideIndex restDom) : ℕ) : ℤ) ∧
    0 ≤ (navSeq 0 100 [true, true, true] restState restDom).1.index ∧
    (navSeq 0 100 [true, true, true] restState restDom).1.index
        < (restDom.childElementCount : ℤ) :=
  C2_navigate_amended 0 100 [true, true, true] restState restDom (by norm_num)
    rfl (by decide) (by decide) (by decide)

/-- Counterexample to C2 as stated: on a loaded mid-swipe state at index 0
(four slides, rendered `left = -60%`), one forward navigate sets the index
to 2, not 1 — and 2 is not the saturation bound `length - 1 = 3`. -/
theorem C2_counterexample :
    exState.slider = some () ∧ exState.index = 0 ∧ exState.length = 4 ∧
    (navSeq 0 100 [true] exState exDom).1.index = 2 := by
  refine ⟨rfl, rfl, rfl, ?_⟩
  rw [navSeq_cons_found 0 100 true [] exState exDom (by decide) (by decide)]
  show ({ loadedState 0 100 exState exDom with
      index := (specNavStep exDom.childElementCount (getSlideIndex exDom) true : ℤ) } : State).index = 2
  decide

/-- C3 (corrected).  The code compares with `<=` and `>=`, so navigation
also triggers at exactly `±threshold` (see `C3_counterexample`); the index
is left unchanged only strictly inside `(-threshold, threshold)`.  Amended
claim: on touch end with swipe percentage `p` and threshold `t > 0`, if
`p ≤ -t` the slider navigates forward (index becomes
`specNavStep length read true` for the re-parsed index `read`); if `p ≥ t`
it navigates backward; and for `-t < p < t` the index is unchanged (given a
loaded in-range index), with the swipe state cleared. -/
theorem C3_touchEnd_amended (c : ℕ) (w : ℚ) (cfg : Config) (s : State) (d : ListDom)
    (ht : 0 < cfg.threshold)
    (hL : 1 ≤ d.childElementCount) (hread : getSlideIndex d < d.childElementCount) :
    (swipingDistancePercentage s ≤ -cfg.threshold →
      (touchEnd (Lookup.found c w) cfg s d).err = none ∧
      (touchEnd (Lookup.found c w) cfg s d).state.index
        = (specNavStep d.childElementCount (getSlideIndex d) true : ℤ)) ∧
    (cfg.threshold ≤ swipingDistancePercentage s →
      (touchEnd (Lookup.found c w) cfg s d).err = none ∧
      (touchEnd (Lookup.found c w) cfg s d).state.index
        = (specNavStep d.childElementCount (getSlideIndex d) false : ℤ)) ∧
    (-cfg.threshold < swipingDistancePercentage s →
      swipingDistancePercentage s < cfg.threshold →
      0 ≤ s.index → s.index < (s.length : ℤ) →
      (touchEnd (Lookup.found c w) cfg s d).state.index = s.index ∧
      (touchEnd (Lookup.found c w) cfg s d).state.swiping = false ∧
      (touchEnd (Lookup.found c w) cfg s d).state.swipingDistance = 0) := by
  refine ⟨?_, ?_, ?_⟩
  · intro hp
    have h := touchEnd_found_forward c w cfg s d hL hread (by rw [mul_neg_one]; exact hp)
    exact ⟨h.1, h.2.1⟩
  · intro hp
    have hp1 : ¬ swipingDistancePercentage s ≤ cfg.threshold * (-1) := by
      rw [mul_neg_one]
      intro hc
      linarith
    have h := touchEnd_found_backward c w cfg s d hL hread hp1 hp
    exact ⟨h.1, h.2.1⟩
  · intro hp1 hp2 h0 h1
    have hq1 : ¬ swipingDistancePercentage s ≤ cfg.threshold * (-1) := by
      rw [mul_neg_one]
      intro hc
      linarith
    have hq2 : ¬ cfg.threshold ≤ swipingDistancePercentage s := by
      intro hc
      linarith
    have h := touchEnd_within (Lookup.found c w) cfg s d hq1 hq2 h0 h1
    exact ⟨h.1, h.2.1, h.2.2.1⟩

/-- Witness for the amended C3: a swipe of -60% on the default threshold 20
navigates forward without error. -/
theorem C3_witness :
    (touchEnd (Lookup.found 0 100) cfg20 exState exDom).err = none ∧
    (touchEnd (Lookup.found 0 100) cfg20 exState exDom).state.index
      = (specNavStep exDom.childElementCount (getSlideIndex exDom) true : ℤ) :=
  (C3_touchEnd_amended 0 100 cfg20 exState exDom (by decide) (by decide) (by decide)).1
    (by norm_num [swipingDistancePercentage, exState, cfg20])

/-- Counterexample to C3 as stated: with threshold 20, a swipe percentage of
exactly +20 lies in the closed interval `[-20, 20]`, yet the touch end
navigates backward and the index drops from 1 to 0. -/
theorem C3_counterexample :
    -cfg20.threshold ≤ swipingDistancePercentage c3State ∧
    swipingDistancePercentage c3State ≤ cfg20.threshold ∧
    c3State.index = 1 ∧
    (touchEnd (Lookup.found 0 100) cfg20 c3State c3Dom).state.index = 0 := by
  have h := (touchEnd_found_backward 0 100 cfg20 c3State c3Dom (by decide) (by decide)
      (by norm_num [swipingDistancePercentage, c3State, cfg20])
      (by norm_num [swipingDistancePercentage, c3State, cfg20])).2.1
  refine ⟨by norm_num [swipingDistancePercentage, c3State, cfg20],
          by norm_num [swipingDistancePercentage, c3State, cfg20], rfl, ?_⟩
  rw [h]
  decide

/-- C4 (confirmed).  `getSlideIndex` round-trips with rendering: for every
integer `0 ≤ I < length`, parsing the left string `"-I*100%"` yields
exactly `I`, and `loadState` on a list whose `left` holds the number
`-(I*100)` loads state index `I`. -/
theorem C4_roundtrip (I L : ℕ) (h : I < L) (cc : ℕ) (w : ℚ) (s : State) (sc : Bool) :
    getSlideIndexStr (some (negLeftString (I * 100))) = some I ∧
    loadState (Lookup.found cc w) s
        { childElementCount := L, left := some (-((I : ℚ) * 100)), swipingClass := sc }
      = Except.ok
          { s with
              sliderContainer := some cc, slider := some (),
              length := L, index := ((I : ℕ) : ℤ), width := some w } := by
  constructor
  · rw [getSlideIndexStr_neg]
    congr 1
    omega
  · have hleft : ({ childElementCount := L,
                    left := some (-((I : ℚ) * 100)),
                    swipingClass := sc } : ListDom).left = some ((I : ℚ) * (-100)) := by
      show some (-((I : ℚ) * 100)) = some ((I : ℚ) * (-100))
      congr 1
      ring
    have hgi := getSlideIndex_eq_of_left _ I hleft
    rw [loadState_found]
    unfold loadedState
    rw [hgi]

/-- Witness for C4 at `I = 2`, `L = 4`. -/
theorem C4_witness :
    getSlideIndexStr (some (negLeftString (2 * 100))) = some 2 ∧
    loadState (Lookup.found 0 100) initState
        { childElementCount := 4, left := some (-(((2 : ℕ) : ℚ) * 100)), swipingClass := false }
      = Except.ok
          { initState with
              sliderContainer := some 0, slider := some (),
              length := 4, index := (((2 : ℕ) : ℕ) : ℤ), width := some 100 } :=
  C4_roundtrip 2 4 (by decide) 0 100 initState false

/-- C5 (confirmed).  `loadState` fails exactly when the DOM lookup fails:
`container not found` precisely when no ancestor matches the container
selector, `slider not found` precisely when a container is found without a
matching list, and no error when both lookups succeed. -/
theorem C5_loadState_errors (lk : Lookup) (s : State) (d : ListDom) :
    ((∃ s', loadState lk s d = Except.error (LoadErr.containerNotFound, s'))
        ↔ lk = Lookup.noContainer) ∧
    ((∃ s', loadState lk s d = Except.error (LoadErr.sliderNotFound, s'))
        ↔ ∃ cc, lk = Lookup.containerNoList cc) ∧
    ((∃ s', loadState lk s d = Except.ok s') ↔ ∃ cc w, lk = Lookup.found cc w) := by
  cases lk <;> simp [loadState]

/-- C6 (corrected).  `onSlide` does fire exactly once per render
(`setState` with a loaded slider), with the post-clamp state snapshot, and
exactly once per `navigate`; but a touch end that triggers navigation
performs two renders — one inside `navigate` and one after clearing the
swipe state — so it fires `onSlide` exactly twice, not once (see
`C6_counterexample`). -/
theorem C6_onSlide_amended (c : ℕ) (w : ℚ) (cfg : Config) (s : State) (d : ListDom) :
    (s.slider = some () → (setState s d).2.2 = [(setState s d).1]) ∧
    (∀ lk fwd s' d' log, navigate lk fwd s d = Except.ok (s', d', log) → log = [s']) ∧
    (1 ≤ d.childElementCount → getSlideIndex d < d.childElementCount →
      (swipingDistancePercentage s ≤ cfg.threshold * (-1) ∨
        (¬ swipingDistancePercentage s ≤ cfg.threshold * (-1) ∧
          cfg.threshold ≤ swipingDistancePercentage s)) →
      (touchEnd (Lookup.found c w) cfg s d).emits.length = 2) := by
  refine ⟨?_, ?_, ?_⟩
  · intro hs
    rw [setState_some _ _ hs]
  · intro lk fwd s' d' log h
    cases lk with
    | noContainer =>
      rw [navigate_noContainer] at h
      exact absurd h (by simp)
    | containerNoList cc =>
      rw [navigate_containerNoList] at h
      exact absurd h (by simp)
    | found cc w' =>
      exact (navigate_found_ok_props cc w' fwd s d s' d' log h).2.2.1
  · intro hL hread hcase
    rcases hcase with hp | ⟨hp1, hp2⟩
    · exact (touchEnd_found_forward c w cfg s d hL hread hp).2.2.2.2
    · exact (touchEnd_found_backward c w cfg s d hL hread hp1 hp2).2.2.2.2

/-- Witness for the amended C6: one render of a loaded slider emits exactly
its post-clamp state once. -/
theorem C6_witness :
    (setState restState restDom).2.2 = [(setState restState restDom).1] :=
  (C6_onSlide_amended 0 100 cfg20 restState restDom).1 rfl

/-- Counterexample to C6 as stated: a touch end that triggers navigation
fires `onSlide` twice, not exactly once. -/
theorem C6_counterexample :
    (touchEnd (Lookup.found 0 100) cfg20 exState exDom).emits.length = 2 ∧
    ¬ (touchEnd (Lookup.found 0 100) cfg20 exState exDom).emits.length = 1 := by
  have h := (touchEnd_found_forward 0 100 cfg20 exState exDom (by decide) (by decide)
      (by norm_num [swipingDistancePercentage, exState, cfg20])).2.2.2.2
  refine ⟨h, ?_⟩
  rw [h]
  decide

/-- C7 (confirmed).  With no slider loaded, `setState` is a complete no-op:
the state is unchanged in every field, the DOM is untouched, and `onSlide`
is not invoked. -/
theorem C7_setState_noop (s : State) (d : ListDom) (h : s.slider = none) :
    setState s d = (s, d, []) :=
  setState_none s d h

/-- Witness for C7 on the initial (unloaded) state. -/
theorem C7_witness : setState initState restDom = (initState, restDom, []) :=
  C7_setState_noop initState restDom rfl

/-- C10 (confirmed).  `loadState` is not atomic on error: when it raises
`slider not found` the state's `sliderContainer` has already been
overwritten with the newly found container (and `slider` with null), and
when it raises `container not found`, `sliderContainer` has been
overwritten with null; in both cases for every pre-call state, so the
pre-call value is not restored. -/
theorem C10_loadState_nonatomic (s : State) (d : ListDom) (cc : ℕ) :
    loadState (Lookup.containerNoList cc) s d
      = Except.error (LoadErr.sliderNotFound,
          { s with sliderContainer := some cc, slider := none }) ∧
    loadState Lookup.noContainer s d
      = Except.error (LoadErr.containerNotFound, { s with sliderContainer := none }) :=
  ⟨rfl, rfl⟩

/-- C9 (confirmed).  `getSlideIndex` ignores the sign of the left offset:
for every `I`, both the positive string `"I*100%"` and the negative string
`"-I*100%"` parse to the same index `I`, because the parser strips both the
`%` and `-` characters before converting. -/
theorem C9_sign_ignored (I : ℕ) :
    getSlideIndexStr (some (posLeftString (I * 100))) = some I ∧
    getSlideIndexStr (some (negLeftString (I * 100))) = some I := by
  constructor
  · rw [getSlideIndexStr_pos]
    congr 1
    omega
  · rw [getSlideIndexStr_neg]
    congr 1
    omega


/-- C8 (confirmed).  A keydown is ignored unless the focused target is
inside an element bearing the slider attribute; when it is, ArrowLeft and
ArrowRight suppress the default action and navigate backward resp. forward
(on a successful lookup, the index becomes the saturating step of the
re-parsed index); all other keys are ignored. -/
theorem C8_keydown_behavior (e : KeyEv) (s : State) (d : ListDom) (c : ℕ) (w : ℚ) :
    (e.inAttr = false → keydown e s d = ⟨s, d, [], false, none⟩) ∧
    (e.inAttr = true → ¬(e.key = "ArrowLeft" ∨ e.key = "ArrowRight") →
      keydown e s d = ⟨s, d, [], false, none⟩) ∧
    (e.inAttr = true → (e.key = "ArrowLeft" ∨ e.key = "ArrowRight") →
      (keydown e s d).prevented = true) ∧
    (e.inAttr = true → (e.key = "ArrowLeft" ∨ e.key = "ArrowRight") →
      e.lookup = Lookup.found c w →
      1 ≤ d.childElementCount → getSlideIndex d < d.childElementCount →
      (keydown e s d).err = none ∧
      (keydown e s d).state.index
        = (specNavStep d.childElementCount (getSlideIndex d) (e.key == "ArrowRight") : ℤ)) := by
  obtain ⟨ia, k, lk⟩ := e
  refine ⟨?_, ?_, ?_, ?_⟩
  · intro h
    subst h
    simp [keydown]
  · intro h hk
    subst h
    simp [keydown, hk]
  · intro h hk
    subst h
    cases hnav : navigate lk (k == "ArrowRight") s d with
    | error er =>
      obtain ⟨er1, s1⟩ := er
      simp [keydown, hk, hnav]
    | ok r =>
      obtain ⟨s1, r2⟩ := r
      obtain ⟨d1, log1⟩ := r2
      simp [keydown, hk, hnav]
  · intro h hk hlk hL hread
    subst h
    subst hlk
    rcases hk with hkey | hkey <;> subst hkey
    · have hb : (("ArrowLeft" : String) == "ArrowRight") = false := by decide
      have hnav := navigate_found_eq c w false s d hL hread
      constructor
      · simp [keydown, hb, hnav]
      · simp [keydown, hb, hnav, loadedState]
    · have hb : (("ArrowRight" : String) == "ArrowRight") = true := by decide
      have hnav := navigate_found_eq c w true s d hL hread
      constructor
      · simp [keydown, hb, hnav]
      · simp [keydown, hb, hnav, loadedState]

/-- Witness for C8: ArrowRight focused inside a slider suppresses the
default and navigates forward without error. -/
theorem C8_witness :
    (keydown { inAttr := true, key := "ArrowRight", lookup := Lookup.found 0 100 }
        restState restDom).err = none ∧
    (keydown { inAttr := true, key := "ArrowRight", lookup := Lookup.found 0 100 }
        restState restDom).state.index
      = (specNavStep restDom.childElementCount (getSlideIndex restDom)
          (("ArrowRight" : String) == "ArrowRight") : ℤ) :=
  (C8_keydown_behavior { inAttr := true, key := "ArrowRight", lookup := Lookup.found 0 100 }
      restState restDom 0 100).2.2.2
    rfl (Or.inr rfl) rfl (by decide) (by decide)

end Slider
